import Mathlib

/-!
Shallow embedding of the Iroha chat frontend (`src/frontend/app/page.tsx`).

The React state hooks of the component become fields of `AppState`; each handler
(`addReaction`, `toggleBookmark`, `sendChat`, `createNewSession`, `clearAll`,
`deleteSession`, the voice-config loader) becomes a pure state-transition
function.  Network calls are modelled by passing the fetch outcome in as a
`FetchResult` argument; the requests a handler issues are returned alongside
the new state so that frame claims ("no request is issued") are statable.
Optional TypeScript fields (`reactions?`, `bookmarked?`, `id?`) become
`Option` fields, and JavaScript truthiness on numbers (`!currentSessionId`)
is modelled explicitly.
-/

namespace Iroha

/-- The role field of `ChatMsg`: "user" | "assistant". -/
inductive Role where
  | user
  | assistant
  deriving Repr, DecidableEq

/-- The `ChatMsg` type: role, content, and the optional fields
`id?`, `reactions?`, `bookmarked?`. -/
structure ChatMsg where
  role : Role
  content : String
  id : Option Nat := none
  reactions : Option (List String) := none
  bookmarked : Option Bool := none
  deriving Repr, DecidableEq

/-- The `Session` row type shown in the sidebar. -/
structure Session where
  id : Nat
  title : String
  persona : String
  created_at : String
  updated_at : String
  message_count : Nat
  deriving Repr, DecidableEq

/-- The `VoiceConfig` payload of `GET /voice/groq/config`.  `default_voice`
and `default_speed` are `Option` because the code guards them with `??`;
speeds are rationals (the JS numbers of the source, embedded exactly). -/
structure VoiceConfig where
  voices : List (String × String)
  default_voice : Option String
  recommended : String
  speed_min : ℚ
  speed_max : ℚ
  default_speed : Option ℚ
  deriving Repr, DecidableEq

/-- The metadata object of the `/chat/session` response; both fields are behind
`?.`/`??` in the source, so they are `Option`.  `duration_seconds` is kept
as the string it is interpolated into. -/
structure ChatMetadata where
  session_id : Option Nat := none
  duration_seconds : Option String := none
  deriving Repr, DecidableEq

/-- The JSON body of a successful `/chat/session` response. -/
structure ChatResponse where
  response : String
  metadata : Option ChatMetadata := none
  deriving Repr, DecidableEq

/-- Outcome of a `fetch`: success with payload, a non-ok HTTP status
(`!res.ok`), or a thrown error with its message. -/
inductive FetchResult (α : Type) where
  | ok (payload : α)
  | httpError (statusCode : Nat)
  | thrown (msg : String)
  deriving Repr, DecidableEq

/-- A network request issued by a handler, recorded so that "no request is
issued" and "a DELETE with permanent=true is issued" are statable. -/
inductive Request where
  | chat (message : String) (session_id : Option Nat) (persona : String)
  | tts (text : String) (voice : String) (speed : ℚ)
  | deleteSessionReq (sid : Nat) (permanent : Bool)
  | listSessions
  deriving Repr, DecidableEq

/-- The state hooks of the component, one field per `useState` (plus the
`isListening` flag of the voice-input hook, which gates the textarea). -/
structure AppState where
  message : String
  history : List ChatMsg
  status : String
  loading : Bool
  voices : List (String × String)
  voice : String
  speed : ℚ
  textOnly : Bool
  audioUrl : Option String
  sessions : List Session
  currentSessionId : Option Nat
  transcript : String
  isListening : Bool
  deriving Repr, DecidableEq

/-- The initial values of the `useState` hooks. -/
def initState : AppState where
  message := ""
  history := []
  status := "Ready"
  loading := false
  voices := []
  voice := "Arista-PlayAI"
  speed := 21/20
  textOnly := false
  audioUrl := none
  sessions := []
  currentSessionId := none
  transcript := ""
  isListening := false

/-- JavaScript `String.prototype.trim`: drop whitespace from both ends,
as an executable function on the character list. -/
def jsTrim (s : String) : String :=
  ⟨((s.data.dropWhile Char.isWhitespace).reverse.dropWhile Char.isWhitespace).reverse⟩

/-- The body of the `setHistory` updater in `addReaction`: `prev.map((msg, i) =>
...)` — at `i === messageIndex`, toggle `emoji` in `msg.reactions || []`
(filter it out if present, append it otherwise); other entries returned
as-is. -/
def addReaction (prev : List ChatMsg) (messageIndex : Nat) (emoji : String) :
    List ChatMsg :=
  prev.mapIdx fun i msg =>
    if i = messageIndex then
      let currentReactions := msg.reactions.getD []
      let hasReaction := currentReactions.contains emoji
      { msg with
        reactions := some <|
          if hasReaction then currentReactions.filter (fun r => r ≠ emoji)
          else currentReactions ++ [emoji] }
    else msg

/-- The body of the `setHistory` updater in `toggleBookmark`: at
`i === messageIndex`, `{ ...msg, bookmarked: !msg.bookmarked }` (JS `!` on
a possibly-undefined boolean). -/
def toggleBookmark (prev : List ChatMsg) (messageIndex : Nat) :
    List ChatMsg :=
  prev.mapIdx fun i msg =>
    if i = messageIndex then { msg with bookmarked := some !(msg.bookmarked.getD false) }
    else msg

/-- JavaScript truthiness on a nullable number (`data.metadata?.session_id`,
`!currentSessionId`): `null`/`undefined` and `0` are falsy. -/
def jsTruthyId : Option Nat → Bool
  | none => false
  | some n => n != 0

/-- Embeds `loadConfig`: on a successful `GET /voice/groq/config`, store the voice
map and set `voice` and `speed` from the config defaults (with the `??`
fallbacks); a non-ok response or a thrown error leaves the state unchanged.
Note the fetched `speed_min`/`speed_max` are not stored anywhere. -/
def loadConfig (s : AppState) (res : FetchResult VoiceConfig) : AppState :=
  match res with
  | .ok cfg =>
      { s with
        voices := cfg.voices
        voice := cfg.default_voice.getD "Fritz-PlayAI"
        speed := cfg.default_speed.getD (21/20) }
  | .httpError _ => s
  | .thrown _ => s

/-- Embeds `createNewSession`: reset history, current session, audio, and status. -/
def createNewSession (s : AppState) : AppState :=
  { s with
    history := []
    currentSessionId := none
    audioUrl := none
    status := "New chat started" }

/-- Embeds `clearAll`: reset history, audio, current session, and status. -/
def clearAll (s : AppState) : AppState :=
  { s with
    history := []
    audioUrl := none
    currentSessionId := none
    status := "Cleared" }

/-- The values the `sendChat` closure reads from the render that created it
and uses after its awaits: the trimmed user text, the session id, and the
TTS settings. -/
structure SendCapture where
  userContent : String
  sessionId : Option Nat
  textOnly : Bool
  voice : String
  speed : ℚ
  deriving Repr, DecidableEq

def captureOf (s : AppState) : SendCapture :=
  { userContent := jsTrim s.message
    sessionId := s.currentSessionId
    textOnly := s.textOnly
    voice := s.voice
    speed := s.speed }

/-- The `POST /chat/session` request `sendChat` issues, with its JSON body
`{ message, session_id, persona: "iroha" }`. -/
def chatRequestOf (c : SendCapture) : Request :=
  .chat c.userContent c.sessionId "iroha"

/-- The synchronous prefix of `sendChat`, run when the `!message.trim()`
guard passes: append the trimmed user message to history, clear the
textarea and transcript, set `loading`, and set status to "Thinking...". -/
def sendChatStart (s : AppState) : AppState :=
  { s with
    history := s.history ++ [{ role := .user, content := jsTrim s.message }]
    message := ""
    transcript := ""
    loading := true
    status := "Thinking..." }

/-- The continuation of `sendChat` once the `/chat/session` fetch resolves
(and, when voice is on, the TTS fetch): `c` holds the closure-captured
values, `s` is the component state at resolution time, and the returned
list records the further requests issued (the sidebar refresh and the TTS
call).  Every branch ends with `loading := false` (the `finally` block);
thrown errors and non-ok statuses surface as `"Error: ..."` via the
`catch` block.  The fire-and-forget `loadSessions()` refresh is recorded
as a request; its response is not modelled (no claim depends on it). -/
def sendChatFinish (c : SendCapture) (s : AppState)
    (chatRes : FetchResult ChatResponse) (ttsRes : FetchResult String) :
    AppState × List Request :=
  match chatRes with
  | .thrown m => ({ s with status := "Error: " ++ m, loading := false }, [])
  | .httpError code =>
      ({ s with
         status := "Error: " ++ "Chat failed (" ++ toString code ++ ")",
         loading := false }, [])
  | .ok data =>
      let newSid := data.metadata.bind ChatMetadata.session_id
      let takeNew := jsTruthyId newSid && !(jsTruthyId c.sessionId)
      let s1 := if takeNew then { s with currentSessionId := newSid } else s
      let refreshReqs : List Request := if takeNew then [.listSessions] else []
      let s2 :=
        { s1 with
          history := s1.history ++
            [({ role := .assistant, content := data.response } : ChatMsg)]
          status := "Response time: " ++
            (data.metadata.bind ChatMetadata.duration_seconds).getD "?" ++ "s" }
      if c.textOnly then ({ s2 with loading := false }, refreshReqs)
      else
        let s3 := { s2 with status := "Generating voice..." }
        let ttsReq : Request := .tts data.response c.voice c.speed
        match ttsRes with
        | .thrown m =>
            ({ s3 with status := "Error: " ++ m, loading := false },
             refreshReqs ++ [ttsReq])
        | .httpError code =>
            ({ s3 with
               status := "Error: " ++ "TTS failed (" ++ toString code ++ ")",
               loading := false }, refreshReqs ++ [ttsReq])
        | .ok audio =>
            ({ s3 with audioUrl := some audio, status := "Ready", loading := false },
             refreshReqs ++ [ttsReq])

/-- Embeds `sendChat` run atomically (no interleaved events): guard on blank
input, then the synchronous start and the awaited continuation.  Returns
the new state and every request issued. -/
def sendChat (s : AppState) (chatRes : FetchResult ChatResponse)
    (ttsRes : FetchResult String) : AppState × List Request :=
  if jsTrim s.message = "" then (s, [])
  else
    let c := captureOf s
    let r := sendChatFinish c (sendChatStart s) chatRes ttsRes
    (r.1, chatRequestOf c :: r.2)

/-- Modelled from the spec: the backend session store is not under `src/`
(the backend directory holds only `VOICE_SETUP.md`).  Per spec §4.3 it
offers "plain list/get/delete operations over a persistence layer":
a list of session rows, where `DELETE /sessions/{id}?permanent=true`
removes the row with that id and `GET /sessions` returns the rows. -/
structure SessionStore where
  rows : List Session
  deriving Repr, DecidableEq

/-- Modelled from the spec: permanent deletion removes the addressed row. -/
def SessionStore.deleteRow (st : SessionStore) (sid : Nat) : SessionStore :=
  { rows := st.rows.filter fun r => r.id != sid }

/-- Modelled from the spec: `GET /sessions` lists the stored rows. -/
def SessionStore.list (st : SessionStore) : List Session :=
  st.rows

/-- Embeds `deleteSession`: issue DELETE on /sessions/:id with permanent=true,
re-fetch the session list (`loadSessions`), and if the deleted session was
the current one, `createNewSession()`.  `netOk = false` models the `catch`
path, where a thrown fetch leaves the client state unchanged. -/
def deleteSession (s : AppState) (st : SessionStore) (sid : Nat)
    (netOk : Bool) : AppState × SessionStore × List Request :=
  if netOk then
    let st' := st.deleteRow sid
    let s1 := { s with sessions := st'.list }
    let s2 := if s.currentSessionId = some sid then createNewSession s1 else s1
    (s2, st', [.deleteSessionReq sid true, .listSessions])
  else (s, st, [])

/-- The speed range input is rendered with `min={0.5} max={2} step={0.05}`;
the browser clamps the element value to these attributes, so a slider
interaction sets `speed` to a value clamped into `[0.5, 2]`. -/
def sliderSetSpeed (s : AppState) (v : ℚ) : AppState :=
  { s with speed := max (1/2) (min 2 v) }

/-- The disabled attribute of the textarea: isListening. -/
def textareaDisabled (s : AppState) : Bool :=
  s.isListening

/-- The disabled attribute of the send button: loading or a blank trimmed message. -/
def sendButtonDisabled (s : AppState) : Bool :=
  s.loading || jsTrim s.message == ""

/-- Component state plus the list of outstanding (started, unresolved)
`sendChat` continuations — the in-flight chat requests. -/
structure UIState where
  app : AppState
  pending : List SendCapture
  deriving Repr, DecidableEq

/-- The user and network events of the component that the claims mention. -/
inductive Event where
  | typeMessage (t : String)
  | clickSend
  | pressEnter (shift : Bool)
  | chatResolves (i : Nat) (chatRes : FetchResult ChatResponse)
      (ttsRes : FetchResult String)
  | configLoads (res : FetchResult VoiceConfig)
  | setSlider (v : ℚ)
  | clickClear
  | clickNewChat

/-- Invoking `sendChat`: if the blank guard fails, nothing happens;
otherwise the synchronous prefix runs and a request becomes outstanding. -/
def invokeSend (u : UIState) : UIState :=
  if jsTrim u.app.message = "" then u
  else { app := sendChatStart u.app, pending := u.pending ++ [captureOf u.app] }

/-- Event-step semantics of the component.  Typing and Enter reach the
textarea only when it is enabled (`disabled={isListening}`); the send
button fires only when enabled (`disabled={loading || !message.trim()}`);
`handleKeyDown` invokes `sendChat` on Enter without Shift, with no
loading check.  `chatResolves i` runs the `i`-th outstanding
continuation. -/
def step (u : UIState) : Event → UIState
  | .typeMessage t =>
      if textareaDisabled u.app then u
      else { u with app := { u.app with message := t } }
  | .clickSend =>
      if sendButtonDisabled u.app then u else invokeSend u
  | .pressEnter shift =>
      if textareaDisabled u.app then u
      else if shift then u else invokeSend u
  | .chatResolves i chatRes ttsRes =>
      match u.pending[i]? with
      | none => u
      | some c =>
          { app := (sendChatFinish c u.app chatRes ttsRes).1
            pending := u.pending.eraseIdx i }
  | .configLoads res => { u with app := loadConfig u.app res }
  | .setSlider v => { u with app := sliderSetSpeed u.app v }
  | .clickClear => { u with app := clearAll u.app }
  | .clickNewChat => { u with app := createNewSession u.app }

/-- Run a list of events from the initial render. -/
def run (events : List Event) : UIState :=
  events.foldl step { app := initState, pending := [] }

/-- A state is reachable when some event trace from the initial render
produces it. -/
def ReachableUI (u : UIState) : Prop :=
  ∃ events, run events = u

/-- A fetch outcome that enters the `catch` block. -/
def FetchResult.isFailure : FetchResult α → Bool
  | .ok _ => false
  | .httpError _ => true
  | .thrown _ => true

def Request.isChatReq : Request → Bool
  | .chat _ _ _ => true
  | _ => false

def Request.isTtsReq : Request → Bool
  | .tts _ _ _ => true
  | _ => false

/-- Whether, in `h`, the message at index `i` currently carries reaction
`e` (with `msg.reactions || []` semantics for absent fields). -/
def reactedAt (h : List ChatMsg) (i : Nat) (e : String) : Bool :=
  ((h[i]?.bind ChatMsg.reactions).getD []).contains e

theorem getElem?_mapIdx (l : List α) (f : ℕ → α → β) (j : ℕ) :
    (l.mapIdx f)[j]? = l[j]?.map (f j) := by
  rcases Nat.lt_or_ge j l.length with h | h
  · have h' : j < (l.mapIdx f).length := by
      simpa [List.length_mapIdx] using h
    rw [List.getElem?_eq_getElem h, List.getElem?_eq_getElem h']
    simp [← List.get_eq_getElem, List.get_mapIdx]
  · rw [List.getElem?_eq_none (by simpa [List.length_mapIdx] using h),
      List.getElem?_eq_none h]
    rfl

end Iroha

namespace Iroha

/-- Sample states and payloads used by the concrete witnesses below. -/
def sampleMsgState : AppState :=
  { initState with message := "  hi  " }

def sampleResponse : ChatResponse :=
  { response := "yo"
    metadata := some { session_id := some 5, duration_seconds := some "1.2" } }

def sampleHistory : List ChatMsg :=
  [{ role := .user, content := "a" },
   { role := .assistant, content := "b", reactions := some ["x"] }]

def sampleStore : SessionStore :=
  { rows := [{ id := 3, title := "t", persona := "iroha", created_at := ""
               updated_at := "", message_count := 2 },
             { id := 7, title := "u", persona := "iroha", created_at := ""
               updated_at := "", message_count := 0 }] }

/-- The event trace behind the C2 counterexample: type a message, click
send (a request becomes outstanding, `loading := true`), then type again
while the request is still in flight. -/
def loadingTrace : List Event :=
  [.typeMessage "hello", .clickSend, .typeMessage "hi"]

/-- A voice config whose `default_speed` lies outside its own
`[speed_min, speed_max]` bounds. -/
def badVoiceConfig : VoiceConfig :=
  { voices := []
    default_voice := some "Arista-PlayAI"
    recommended := ""
    speed_min := 1
    speed_max := 6/5
    default_speed := some 2 }

end Iroha

namespace Iroha

/-- C10: `createNewSession` and `clearAll` compute the same state update
except for the status text: both empty the history and null out
`currentSessionId` and `audioUrl`; they differ only in setting `status` to
"New chat started" versus "Cleared". -/
theorem createNewSession_clearAll_equiv (s : AppState) :
    clearAll s = { createNewSession s with status := "Cleared" } ∧
    (createNewSession s).status = "New chat started" ∧
    (clearAll s).status = "Cleared" := by
  refine ⟨?_, rfl, rfl⟩
  simp [clearAll, createNewSession]

/-- C8: when the input message is empty or all whitespace, `sendChat` is a
no-op — the entire component state is returned unchanged and no request
(chat, TTS, or otherwise) is issued. -/
theorem sendChat_blank_noop (s : AppState) (chatRes : FetchResult ChatResponse)
    (ttsRes : FetchResult String) (hmsg : jsTrim s.message = "") :
    sendChat s chatRes ttsRes = (s, []) := by
  simp [sendChat, hmsg]

theorem sendChat_blank_noop_witness :
    jsTrim initState.message = "" ∧
    sendChat initState (.httpError 500) (.ok "blob") = (initState, []) :=
  ⟨by decide, sendChat_blank_noop initState (.httpError 500) (.ok "blob") (by decide)⟩

/-- C4: `addReaction` and `toggleBookmark` return a history of the same
length in which every entry keeps its role and content; entries other than
the addressed index `i` are unchanged, and at index `i` only the reactions
list (for `addReaction`) respectively the bookmarked flag (for
`toggleBookmark`) changes — the other annotation fields and the id are
preserved. -/
theorem annotations_frame (h : List ChatMsg) (i j : Nat) (e : String) :
    (addReaction h i e).length = h.length ∧
    (toggleBookmark h i).length = h.length ∧
    (addReaction h i e)[j]?.map ChatMsg.role = h[j]?.map ChatMsg.role ∧
    (addReaction h i e)[j]?.map ChatMsg.content = h[j]?.map ChatMsg.content ∧
    (toggleBookmark h i)[j]?.map ChatMsg.role = h[j]?.map ChatMsg.role ∧
    (toggleBookmark h i)[j]?.map ChatMsg.content = h[j]?.map ChatMsg.content ∧
    (j ≠ i → (addReaction h i e)[j]? = h[j]? ∧ (toggleBookmark h i)[j]? = h[j]?) ∧
    (addReaction h i e)[i]?.map ChatMsg.bookmarked = h[i]?.map ChatMsg.bookmarked ∧
    (addReaction h i e)[i]?.map ChatMsg.id = h[i]?.map ChatMsg.id ∧
    (toggleBookmark h i)[i]?.map ChatMsg.reactions = h[i]?.map ChatMsg.reactions ∧
    (toggleBookmark h i)[i]?.map ChatMsg.id = h[i]?.map ChatMsg.id := by
  unfold addReaction toggleBookmark
  refine ⟨by simp [List.length_mapIdx], by simp [List.length_mapIdx], ?_, ?_, ?_, ?_, ?_, ?_, ?_, ?_, ?_⟩ <;>
    simp only [getElem?_mapIdx]
  all_goals
    first
      | (intro hji
         cases hj : h[j]? <;> simp [hji])
      | (cases hj : h[j]? <;>
          · simp only [Option.map_some, Option.map_none, Option.map_map]
            first
              | rfl
              | (split <;> rfl))

theorem annotations_frame_witness :
    (addReaction sampleHistory 1 "x").length = sampleHistory.length ∧
    (addReaction sampleHistory 1 "x")[0]? = sampleHistory[0]? ∧
    (toggleBookmark sampleHistory 1)[0]? = sampleHistory[0]? ∧
    (addReaction sampleHistory 1 "x")[1]?.map ChatMsg.bookmarked =
      sampleHistory[1]?.map ChatMsg.bookmarked ∧
    (toggleBookmark sampleHistory 1)[1]?.map ChatMsg.reactions =
      sampleHistory[1]?.map ChatMsg.reactions :=
  ⟨(annotations_frame sampleHistory 1 0 "x").1,
   ((annotations_frame sampleHistory 1 0 "x").2.2.2.2.2.2.1 (by decide)).1,
   ((annotations_frame sampleHistory 1 0 "x").2.2.2.2.2.2.1 (by decide)).2,
   (annotations_frame sampleHistory 1 0 "x").2.2.2.2.2.2.2.1,
   (annotations_frame sampleHistory 1 0 "x").2.2.2.2.2.2.2.2.2.1⟩

/-- C9: `addReaction` toggles reaction membership — for a valid index `i`,
after `addReaction h i e` the emoji `e` is contained in the reactions of
message `i` exactly when it was not contained before. -/
theorem addReaction_toggles_membership (h : List ChatMsg) (i : Nat)
    (e : String) (hi : i < h.length) :
    reactedAt (addReaction h i e) i e = !(reactedAt h i e) := by
  unfold reactedAt addReaction
  rw [getElem?_mapIdx, List.getElem?_eq_getElem hi]
  simp only [Option.map_some, Option.bind_some, if_pos rfl]
  cases hr : ((h[i].reactions).getD []).contains e <;>
    simp_all [List.mem_filter]

theorem addReaction_toggles_membership_witness :
    (reactedAt (addReaction sampleHistory 1 "x") 1 "x" =
      !(reactedAt sampleHistory 1 "x")) ∧
    reactedAt sampleHistory 1 "x" = true ∧
    reactedAt (addReaction sampleHistory 1 "x") 1 "x" = false :=
  ⟨addReaction_toggles_membership sampleHistory 1 "x" (by decide),
   by decide, by decide⟩

theorem error_split (a : String) : "Error: " ++ a = "Error:" ++ (" " ++ a) := by
  rw [← String.append_assoc]
  congr 1

theorem errorStatus_exists (m : String) :
    ∃ rest, "Error: " ++ m = "Error:" ++ rest :=
  ⟨" " ++ m, error_split m⟩

theorem sendChatFinish_loading (c : SendCapture) (s : AppState)
    (chatRes : FetchResult ChatResponse) (ttsRes : FetchResult String) :
    (sendChatFinish c s chatRes ttsRes).1.loading = false := by
  cases chatRes <;> cases ttsRes <;>
    simp only [sendChatFinish] <;>
    first
      | rfl
      | (split <;> rfl)

theorem sendChatFinish_ok_sid (c : SendCapture) (s : AppState)
    (data : ChatResponse) (ttsRes : FetchResult String) :
    (sendChatFinish c s (.ok data) ttsRes).1.currentSessionId =
      (if jsTruthyId (data.metadata.bind ChatMetadata.session_id)
          && !(jsTruthyId c.sessionId)
        then data.metadata.bind ChatMetadata.session_id
        else s.currentSessionId) := by
  cases ttsRes <;>
    simp only [sendChatFinish] <;>
    (split <;> first
      | rfl
      | (split <;> rfl))

/-- C1: for a non-blank input whose chat request succeeds, `sendChat`
appends to the history exactly one user entry carrying the trimmed input
and exactly one assistant entry carrying the returned response text, in
that order — whatever the TTS outcome and the text-only setting. -/
theorem sendChat_appends_user_assistant (s : AppState) (data : ChatResponse)
    (ttsRes : FetchResult String) (hmsg : jsTrim s.message ≠ "") :
    (sendChat s (.ok data) ttsRes).1.history =
      s.history ++
        [{ role := .user, content := jsTrim s.message },
         { role := .assistant, content := data.response }] := by
  unfold sendChat sendChatFinish sendChatStart
  rw [if_neg hmsg]
  cases ttsRes <;>
    · simp only [apply_ite AppState.history]
      split <;> split <;> simp

theorem sendChat_appends_user_assistant_witness :
    jsTrim sampleMsgState.message ≠ "" ∧
    (sendChat sampleMsgState (.ok sampleResponse) (.ok "blob")).1.history =
      sampleMsgState.history ++
        [{ role := .user, content := jsTrim sampleMsgState.message },
         { role := .assistant, content := sampleResponse.response }] :=
  ⟨by decide,
   sendChat_appends_user_assistant sampleMsgState sampleResponse (.ok "blob")
     (by decide)⟩

theorem sendChatFinish_ok_ttsFail_status (c : SendCapture) (s : AppState)
    (data : ChatResponse) (ttsRes : FetchResult String)
    (hto : c.textOnly = false) (htts : ttsRes.isFailure = true) :
    ∃ rest, (sendChatFinish c s (.ok data) ttsRes).1.status = "Error:" ++ rest := by
  cases ttsRes with
  | ok audio => simp [FetchResult.isFailure] at htts
  | thrown m =>
      refine ⟨" " ++ m, ?_⟩
      simp only [sendChatFinish, hto, Bool.false_eq_true, if_false]
      rw [error_split m]
  | httpError code =>
      refine ⟨" " ++ ("TTS failed (" ++ (toString code ++ ")")), ?_⟩
      simp only [sendChatFinish, hto, Bool.false_eq_true, if_false]
      rw [← error_split]
      rw [← String.append_assoc, ← String.append_assoc]

theorem sendChatFinish_req_counts (c : SendCapture) (s : AppState)
    (chatRes : FetchResult ChatResponse) (ttsRes : FetchResult String) :
    (sendChatFinish c s chatRes ttsRes).2.countP Request.isChatReq = 0 ∧
    (sendChatFinish c s chatRes ttsRes).2.countP Request.isTtsReq ≤ 1 := by
  cases chatRes <;> cases ttsRes <;>
    · constructor <;>
        · simp only [sendChatFinish]
          first
            | (split <;> split <;>
                simp [Request.isChatReq, Request.isTtsReq, List.countP_cons,
                  List.countP_append])
            | simp [Request.isChatReq, Request.isTtsReq, List.countP_cons]

/-- C3: when the chat request fails, or the chat request succeeds but voice
is on and the TTS request fails, `sendChat` surfaces the failure as a
status string beginning with "Error:", resets `loading` to `false`, and
attempts no retry — exactly one chat request and at most one TTS request
are ever issued. -/
theorem sendChat_failure_surfaced (s : AppState)
    (chatRes : FetchResult ChatResponse) (ttsRes : FetchResult String)
    (hmsg : jsTrim s.message ≠ "")
    (hfail : chatRes.isFailure = true ∨
      (s.textOnly = false ∧ ttsRes.isFailure = true)) :
    (∃ rest, (sendChat s chatRes ttsRes).1.status = "Error:" ++ rest) ∧
    (sendChat s chatRes ttsRes).1.loading = false ∧
    (sendChat s chatRes ttsRes).2.countP Request.isChatReq = 1 ∧
    (sendChat s chatRes ttsRes).2.countP Request.isTtsReq ≤ 1 := by
  unfold sendChat
  rw [if_neg hmsg]
  have hc := sendChatFinish_req_counts (captureOf s) (sendChatStart s) chatRes ttsRes
  refine ⟨?_, sendChatFinish_loading _ _ _ _, ?_, ?_⟩
  · cases chatRes with
    | thrown m => exact errorStatus_exists m
    | httpError code =>
        show ∃ rest,
          "Error: " ++ "Chat failed (" ++ toString code ++ ")" = "Error:" ++ rest
        rw [String.append_assoc, String.append_assoc]
        exact ⟨_, error_split _⟩
    | ok data =>
        rcases hfail with hfail | ⟨hto, htts⟩
        · simp [FetchResult.isFailure] at hfail
        · exact sendChatFinish_ok_ttsFail_status _ _ data ttsRes
            (by simp [captureOf, hto]) htts
  · show (chatRequestOf (captureOf s) ::
        (sendChatFinish (captureOf s) (sendChatStart s) chatRes ttsRes).2).countP
        Request.isChatReq = 1
    rw [List.countP_cons]
    simp [hc.1, chatRequestOf, Request.isChatReq]
  · show (chatRequestOf (captureOf s) ::
        (sendChatFinish (captureOf s) (sendChatStart s) chatRes ttsRes).2).countP
        Request.isTtsReq ≤ 1
    rw [List.countP_cons]
    simpa [chatRequestOf, Request.isTtsReq] using hc.2

theorem sendChat_failure_surfaced_witness :
    jsTrim sampleMsgState.message ≠ "" ∧
    (FetchResult.httpError (α := ChatResponse) 500).isFailure = true ∧
    (∃ rest,
      (sendChat sampleMsgState (.httpError 500) (.ok "blob")).1.status =
        "Error:" ++ rest) ∧
    (sendChat sampleMsgState (.httpError 500) (.ok "blob")).1.loading = false ∧
    (sendChat sampleMsgState (.httpError 500) (.ok "blob")).2.countP
      Request.isChatReq = 1 ∧
    (sendChat sampleMsgState (.httpError 500) (.ok "blob")).2.countP
      Request.isTtsReq ≤ 1 := by
  have h := sendChat_failure_surfaced sampleMsgState (.httpError 500)
    (.ok "blob") (by decide) (Or.inl rfl)
  exact ⟨by decide, rfl, h.1, h.2.1, h.2.2.1, h.2.2.2⟩

/-- C5: if `sendChat` runs with no current session and the chat request
succeeds carrying a (nonzero) `metadata.session_id`, then afterwards
`currentSessionId` equals the returned session id, whatever the TTS
outcome. -/
theorem sendChat_adopts_new_session_id (s : AppState) (data : ChatResponse)
    (ttsRes : FetchResult String) (sid : Nat)
    (hmsg : jsTrim s.message ≠ "") (hcur : s.currentSessionId = none)
    (hsid : data.metadata.bind ChatMetadata.session_id = some sid)
    (hnz : sid ≠ 0) :
    (sendChat s (.ok data) ttsRes).1.currentSessionId = some sid := by
  unfold sendChat
  rw [if_neg hmsg]
  show (sendChatFinish (captureOf s) (sendChatStart s)
      (.ok data) ttsRes).1.currentSessionId = some sid
  rw [sendChatFinish_ok_sid, hsid]
  have hfalse : jsTruthyId (captureOf s).sessionId = false := by
    simp [captureOf, hcur, jsTruthyId]
  rw [hfalse]
  simp [jsTruthyId, hnz]

theorem sendChat_adopts_new_session_id_witness :
    jsTrim sampleMsgState.message ≠ "" ∧
    sampleMsgState.currentSessionId = none ∧
    sampleResponse.metadata.bind ChatMetadata.session_id = some 5 ∧
    (sendChat sampleMsgState (.ok sampleResponse) (.httpError 404)).1.currentSessionId =
      some 5 :=
  ⟨by decide, rfl, rfl,
   sendChat_adopts_new_session_id sampleMsgState sampleResponse
     (.httpError 404) 5 (by decide) rfl rfl (by decide)⟩

/-- C6: after a successful `deleteSession sid`, the deleted id no longer
appears in the sidebar sessions list — a DELETE with `permanent=true` is
issued and the list re-fetched — and if `sid` was the current session the
conversation is reset: the history becomes empty and `currentSessionId`
becomes `none`. -/
theorem deleteSession_removes_and_resets (s : AppState) (st : SessionStore)
    (sid : Nat) :
    sid ∉ ((deleteSession s st sid true).1.sessions.map Session.id) ∧
    (deleteSession s st sid true).2.2 =
      [.deleteSessionReq sid true, .listSessions] ∧
    (s.currentSessionId = some sid →
      (deleteSession s st sid true).1.history = [] ∧
      (deleteSession s st sid true).1.currentSessionId = none) := by
  refine ⟨?_, rfl, ?_⟩
  · have hsess : (deleteSession s st sid true).1.sessions =
        st.rows.filter (fun r => r.id != sid) := by
      simp only [deleteSession, if_true, SessionStore.deleteRow,
        SessionStore.list]
      split <;> rfl
    rw [hsess]
    simp [List.mem_filter]
  · intro hc
    have h1 : (deleteSession s st sid true).1 =
        createNewSession { s with sessions := (st.deleteRow sid).list } := by
      simp [deleteSession, hc]
    rw [h1]
    exact ⟨rfl, rfl⟩

theorem deleteSession_removes_and_resets_witness :
    3 ∉ ((deleteSession { initState with currentSessionId := some 3 }
        sampleStore 3 true).1.sessions.map Session.id) ∧
    (deleteSession { initState with currentSessionId := some 3 }
        sampleStore 3 true).1.history = [] ∧
    (deleteSession { initState with currentSessionId := some 3 }
        sampleStore 3 true).1.currentSessionId = none :=
  let t := deleteSession_removes_and_resets
    { initState with currentSessionId := some 3 } sampleStore 3
  ⟨t.1, (t.2.2 rfl).1, (t.2.2 rfl).2⟩

/-- C7 counterexample: the claim "for every reachable state after the voice
config is loaded, speed_min ≤ speed ≤ speed_max" is false on the code —
the client never stores the fetched bounds, and `loadConfig` adopts the
config field `default_speed` unclamped.  With `badVoiceConfig` (bounds
[1, 6/5], default_speed 2), immediately after the config load the speed is
2, outside the fetched bounds. -/
theorem speed_outside_config_bounds_counterexample :
    ReachableUI (run [.configLoads (.ok badVoiceConfig)]) ∧
    (run [.configLoads (.ok badVoiceConfig)]).app.speed = 2 ∧
    ¬(badVoiceConfig.speed_min ≤
        (run [.configLoads (.ok badVoiceConfig)]).app.speed ∧
      (run [.configLoads (.ok badVoiceConfig)]).app.speed ≤
        badVoiceConfig.speed_max) :=
  ⟨⟨[.configLoads (.ok badVoiceConfig)], rfl⟩, rfl, by
    rw [show (run [Event.configLoads (.ok badVoiceConfig)]).app.speed = 2
      from rfl]
    norm_num [badVoiceConfig]⟩

/-- C7 amended: the client does not retain the fetched
`speed_min`/`speed_max`.  The speed slider enforces the hardcoded input
bounds `0.5 ≤ speed ≤ 2` (its `min`/`max` attributes), while `loadConfig`
sets the speed to the config field `default_speed` (default 1.05) without
any clamping against the fetched bounds. -/
theorem speed_slider_hardcoded_bounds (s : AppState) (v : ℚ)
    (cfg : VoiceConfig) :
    (1/2 ≤ (sliderSetSpeed s v).speed ∧ (sliderSetSpeed s v).speed ≤ 2) ∧
    (loadConfig s (.ok cfg)).speed = cfg.default_speed.getD (21/20) := by
  refine ⟨⟨le_max_left _ _, ?_⟩, rfl⟩
  exact max_le (by norm_num) (min_le_left _ _)

/-- C2 counterexample: a reachable state with `loading = true` from which
the Enter key still invokes `sendChat` and starts a second outstanding
request — after typing and clicking send (one request in flight), the
textarea is still enabled, the user types again, and Enter brings the
number of outstanding chat requests to 2. -/
theorem enter_during_loading_counterexample :
    ReachableUI (run loadingTrace) ∧
    (run loadingTrace).app.loading = true ∧
    (run loadingTrace).pending.length = 1 ∧
    textareaDisabled (run loadingTrace).app = false ∧
    (step (run loadingTrace) (.pressEnter false)).pending.length = 2 :=
  ⟨⟨loadingTrace, rfl⟩, by decide, by decide, by decide, by decide⟩

/-- C2 amended: while a request is in flight (`loading = true`) the send
button is disabled, so clicking it cannot invoke `sendChat`, and every
completion or error of a request resets `loading` to `false` (the
`finally` block); the textarea, however, is disabled only while speech
input is listening, so the Enter key can still invoke `sendChat` during
loading and start a second outstanding request. -/
theorem loading_disables_send_button (u : UIState)
    (h : u.app.loading = true) :
    step u .clickSend = u ∧
    ∀ (c : SendCapture) (s : AppState) (chatRes : FetchResult ChatResponse)
      (ttsRes : FetchResult String),
      (sendChatFinish c s chatRes ttsRes).1.loading = false := by
  refine ⟨?_, fun c s chatRes ttsRes =>
    sendChatFinish_loading c s chatRes ttsRes⟩
  simp [step, sendButtonDisabled, h]

theorem loading_disables_send_button_witness :
    (run loadingTrace).app.loading = true ∧
    step (run loadingTrace) .clickSend = run loadingTrace ∧
    (sendChatFinish (captureOf initState) initState (.httpError 500)
      (.ok "b")).1.loading = false :=
  ⟨by decide,
   (loading_disables_send_button (run loadingTrace) (by decide)).1,
   (loading_disables_send_button (run loadingTrace) (by decide)).2
     (captureOf initState) initState (.httpError 500) (.ok "b")⟩

end Iroha
